import Mathlib

/-!
Shallow embedding of the mood-driven reactive music engine:
mood types and energy-to-level mappings (src/unnamed/part_001,
src/public/js/mood-analyzer.js), the base mood detector
(src/unnamed/part_002), the camera mood detector
(src/src/mood/camera-detector.ts), the transition evaluator and the
song selector (src/unnamed/part_003), and the browser-side mood
analyzer smoothing and confidence estimation
(src/public/js/mood-analyzer.js).

Numbers are modelled as exact rationals; the two places the source
applies transcendental operations (Math.pow with exponent 0.8 and
Math.sqrt) are modelled over the reals with Real.rpow and Real.sqrt.
-/

/-- Discrete mood levels (src/unnamed/part_001, type MoodLevel). -/
inductive MoodLevel where
  | chill
  | warming_up
  | energetic
  | peak
  | cooling_down
deriving DecidableEq, Repr

/-- Energy trend (src/unnamed/part_001, MoodState.trend). -/
inductive Trend where
  | rising
  | falling
  | stable
deriving DecidableEq, Repr

/-- Full mood state (src/unnamed/part_001, interface MoodState). -/
structure MoodState where
  level : MoodLevel
  energy : ℚ
  trend : Trend
  timestamp : ℚ
  confidence : ℚ
deriving DecidableEq, Repr

/-- A catalog track (src/unnamed/part_000 output shape; fields used by the
selector and evaluator: id, bpm, key, energy, duration). -/
structure Track where
  id : String
  bpm : ℚ
  key : String
  energy : ℚ
  duration : ℚ
deriving DecidableEq, Repr

/-- Energy ranges for each mood level
(src/unnamed/part_001, MOOD_ENERGY_RANGES). -/
def MOOD_ENERGY_RANGES : MoodLevel → ℚ × ℚ
  | .chill => (0, 0.25)
  | .warming_up => (0.2, 0.45)
  | .energetic => (0.4, 0.7)
  | .peak => (0.65, 1.0)
  | .cooling_down => (0.25, 0.5)

/-- Server-side energy-to-level mapping with optional previous level for
hysteresis (src/unnamed/part_001, function energyToMoodLevel, lines
105-119).  Note: it takes no trend input and has no cooling_down branch. -/
def energyToMoodLevel (energy : ℚ) (previousLevel : Option MoodLevel) :
    MoodLevel :=
  let hysteresis : ℚ := if previousLevel.isSome then 0.05 else 0
  if energy ≤ 0.2 - hysteresis then .chill
  else if energy ≤ 0.4 - hysteresis then .warming_up
  else if energy ≤ 0.65 - hysteresis then .energetic
  else if 0.65 + hysteresis < energy then .peak
  else previousLevel.getD .energetic

namespace MoodAnalyzer

/-- Browser-side energy-to-level mapping with hysteresis and a
trend-sensitive cooling_down branch (src/public/js/mood-analyzer.js,
MoodAnalyzer.energyToLevel, lines 185-204).  currentLevel is the
analyzer's current mood level read from this.currentMood. -/
def energyToLevel (energy : ℚ) (trend : Trend) (currentLevel : MoodLevel) :
    MoodLevel :=
  let hysteresis : ℚ := 0.03
  if energy < 0.1 - (if currentLevel = .chill then 0 else hysteresis) then
    .chill
  else if energy < 0.3 - (if currentLevel = .warming_up then 0 else hysteresis)
      then .warming_up
  else if energy < 0.6 - (if currentLevel = .energetic then 0 else hysteresis)
      then .energetic
  else if energy < 0.85 then .peak
  else if trend = .falling ∧ 0.85 ≤ energy then .cooling_down
  else .peak

/-- One motion sample held in the analyzer's smoothing buffer
(src/public/js/mood-analyzer.js, this.motionHistory entries). -/
structure MotionSample where
  value : ℚ
  timestamp : ℚ
deriving DecidableEq, Repr

/-- Recency-weighted average of the motion history
(src/public/js/mood-analyzer.js, MoodAnalyzer.calculateSmoothedMotion,
lines 117-134).  Weight of a sample of age a is 1 - a/W. -/
def calculateSmoothedMotion (history : List MotionSample) (now W : ℚ) : ℚ :=
  if history.isEmpty then 0
  else
    let weightedSum :=
      (history.map (fun e => e.value * (1 - (now - e.timestamp) / W))).sum
    let weightSum :=
      (history.map (fun e => 1 - (now - e.timestamp) / W)).sum
    if 0 < weightSum then weightedSum / weightSum else 0

/-- The history filter applied on each processMotion call: samples at or
before now - W are discarded (src/public/js/mood-analyzer.js,
MoodAnalyzer.processMotion, line 88). -/
def pruneHistory (history : List MotionSample) (now W : ℚ) :
    List MotionSample :=
  history.filter (fun m => now - W < m.timestamp)

/-- Map a motion percentage (0-100) to energy in [0,1] through the concave
curve x ^ 0.8 and a clamp (src/public/js/mood-analyzer.js,
MoodAnalyzer.motionToEnergy, lines 140-149). -/
noncomputable def motionToEnergy (motionPercentage : ℚ) : ℝ :=
  let normalized : ℝ := (motionPercentage : ℝ) / 100
  let curved : ℝ := Real.rpow normalized 0.8
  min 1 (max 0 curved)

/-- Confidence from sample count and variance
(src/public/js/mood-analyzer.js, MoodAnalyzer.calculateConfidence,
lines 209-229).  values are the sample values of the motion history, W the
smoothing window in milliseconds. -/
noncomputable def calculateConfidence (values : List ℚ) (W : ℚ) : ℝ :=
  let dataPoints : ℕ := values.length
  let maxPoints : ℚ := W / 100
  let dataConfidence : ℚ := min 1 ((dataPoints : ℚ) / maxPoints)
  if values.length < 2 then 0.5
  else
    let mean : ℚ := values.sum / (values.length : ℚ)
    let variance : ℚ :=
      (values.map (fun v => (v - mean) ^ 2)).sum / (values.length : ℚ)
    let stdDev : ℝ := Real.sqrt (variance : ℝ)
    let consistencyConfidence : ℝ := max 0.3 (1 - stdDev / 50)
    (dataConfidence : ℝ) * consistencyConfidence

end MoodAnalyzer

/-- An update object passed to BaseMoodDetector.updateMood: any subset of
the mood fields may be supplied (src/unnamed/part_002, the mood argument
of updateMood; callers pass object literals with some of these fields). -/
structure MoodPatch where
  level : Option MoodLevel := none
  energy : Option ℚ := none
  trend : Option Trend := none
  confidence : Option ℚ := none
deriving DecidableEq, Repr

namespace BaseMoodDetector

/-- Merge an update into the current mood and recompute the trend from the
energy change (src/unnamed/part_002, BaseMoodDetector.updateMood, lines
50-71).  The spread of the caller's fields is followed by an unconditional
trend recomputation; now models the Date.now() stamp. -/
def updateMood (prev : MoodState) (patch : MoodPatch) (now : ℚ) : MoodState :=
  let previousEnergy := prev.energy
  let merged : MoodState :=
    { level := patch.level.getD prev.level
      energy := patch.energy.getD prev.energy
      trend := patch.trend.getD prev.trend
      timestamp := now
      confidence := patch.confidence.getD prev.confidence }
  let energyDiff := merged.energy - previousEnergy
  if |energyDiff| < 0.02 then { merged with trend := .stable }
  else if 0 < energyDiff then { merged with trend := .rising }
  else { merged with trend := .falling }

end BaseMoodDetector

/-- Resolved options of the camera mood detector
(src/src/mood/camera-detector.ts, constructor, lines 36-44). -/
structure CameraOptions where
  smoothingFactor : ℚ := 0.3
  hysteresisTime : ℚ := 3000
  minEnergyChange : ℚ := 0.05
  timeoutMs : ℚ := 10000
deriving DecidableEq, Repr

/-- Mutable state of the camera mood detector
(src/src/mood/camera-detector.ts, fields of CameraMoodDetector and of its
base class). -/
structure CameraState where
  running : Bool
  currentMood : MoodState
  smoothedEnergy : ℚ
  lastLevelChangeTime : ℚ
  lastUpdateTime : ℚ
deriving DecidableEq, Repr

/-- A mood update received from the browser
(src/src/mood/camera-detector.ts, the browserMood argument of
processBrowserUpdate). -/
structure BrowserMood where
  level : MoodLevel
  energy : ℚ
  trend : Trend
  confidence : ℚ
deriving DecidableEq, Repr

namespace CameraMoodDetector

/-- Process one browser mood update: exponential smoothing, a minimum-change
gate, level mapping with time-based hysteresis, then updateMood
(src/src/mood/camera-detector.ts, processBrowserUpdate, lines 65-113).
now models the Date.now() reads of the call. -/
def processBrowserUpdate (o : CameraOptions) (s : CameraState)
    (browserMood : BrowserMood) (now : ℚ) : CameraState :=
  if !s.running then s
  else
    let alpha := o.smoothingFactor
    let smoothed := alpha * browserMood.energy + (1 - alpha) * s.smoothedEnergy
    let s1 := { s with lastUpdateTime := now, smoothedEnergy := smoothed }
    let energyDelta := |smoothed - s.currentMood.energy|
    if energyDelta < o.minEnergyChange then s1
    else
      let timeSinceLastChange := now - s.lastLevelChangeTime
      let previousLevel := s.currentMood.level
      let newLevel0 := energyToMoodLevel smoothed (some previousLevel)
      let accepted :=
        newLevel0 ≠ previousLevel ∧ o.hysteresisTime ≤ timeSinceLastChange
      let newLevel :=
        if newLevel0 ≠ previousLevel then
          if timeSinceLastChange < o.hysteresisTime then previousLevel
          else newLevel0
        else newLevel0
      let s2 :=
        if accepted then { s1 with lastLevelChangeTime := now } else s1
      { s2 with
        currentMood :=
          BaseMoodDetector.updateMood s.currentMood
            { level := some newLevel
              energy := some smoothed
              trend := some browserMood.trend
              confidence := some browserMood.confidence } now }

end CameraMoodDetector

/-- Options passed to the TransitionEvaluator constructor, every field
optional (src/unnamed/part_003, interface TransitionEvaluatorOptions). -/
structure ThresholdOptions where
  letPlay : Option ℚ := none
  wait : Option ℚ := none
deriving DecidableEq, Repr

/-- Resolved thresholds (src/unnamed/part_003, ResolvedOptions.thresholds). -/
structure Thresholds where
  letPlay : ℚ
  wait : ℚ
deriving DecidableEq, Repr

/-- Constructor options of the transition evaluator
(src/unnamed/part_003, interface TransitionEvaluatorOptions). -/
structure TransitionEvaluatorOptions where
  minTrackPlayTime : Option ℚ := none
  cooldownPeriod : Option ℚ := none
  evaluationInterval : Option ℚ := none
  thresholds : Option ThresholdOptions := none
  crossfadeDuration : Option ℚ := none
deriving DecidableEq, Repr

/-- Internal options with all defaults applied
(src/unnamed/part_003, interface ResolvedOptions). -/
structure ResolvedOptions where
  minTrackPlayTime : ℚ
  cooldownPeriod : ℚ
  evaluationInterval : ℚ
  thresholds : Thresholds
  crossfadeDuration : ℚ
deriving DecidableEq, Repr

/-- Context provided to the evaluator
(src/unnamed/part_003, interface TransitionContext). -/
structure TransitionContext where
  currentTrack : Track
  currentMood : MoodState
  moodAtTrackStart : MoodState
  trackPlayedSeconds : ℚ
  trackDuration : ℚ
  timeSinceLastTransition : ℚ
  moodStabilitySeconds : ℚ
deriving DecidableEq, Repr

/-- The possible actions of a transition decision
(src/unnamed/part_003, TransitionDecision.action). -/
inductive TransitionAction where
  | transition_now
  | wait
  | let_play
deriving DecidableEq, Repr

/-- Result of a transition evaluation
(src/unnamed/part_003, interface TransitionDecision). -/
structure TransitionDecision where
  action : TransitionAction
  confidence : ℚ
  reason : String
  waitTime : Option ℚ
  score : ℚ
deriving DecidableEq, Repr

namespace TransitionEvaluator

/-- The constructor's defaulting of options
(src/unnamed/part_003, TransitionEvaluator.constructor, lines 401-412).
Each absent field takes its default; present fields are stored as given. -/
def mkResolvedOptions (options : TransitionEvaluatorOptions) :
    ResolvedOptions :=
  { minTrackPlayTime := options.minTrackPlayTime.getD 30
    cooldownPeriod := options.cooldownPeriod.getD 45
    evaluationInterval := options.evaluationInterval.getD 3000
    thresholds :=
      { letPlay := (options.thresholds.bind (fun t => t.letPlay)).getD 30
        wait := (options.thresholds.bind (fun t => t.wait)).getD 60 }
    crossfadeDuration := options.crossfadeDuration.getD 8 }

/-- Stand-in for JavaScript's Number.prototype.toFixed(0) used in reason
strings: round to the nearest integer and print. -/
def numStr (q : ℚ) : String := toString (round q)

/-- Stand-in for toFixed(2) used in reason strings: round to two decimal
places and print integer and fractional parts. -/
def numStr2 (q : ℚ) : String :=
  let n := round (q * 100)
  let f := (n % 100).toNat
  toString (n / 100) ++ "." ++ (if f < 10 then "0" else "") ++ toString f

/-- Urgency score in [0,100]
(src/unnamed/part_003, TransitionEvaluator.calculateUrgencyScore, lines
511-573). -/
def calculateUrgencyScore (context : TransitionContext) : ℚ :=
  let currentTrackEnergy := context.currentTrack.energy
  let currentMoodEnergy := context.currentMood.energy
  let energyDelta := |currentMoodEnergy - currentTrackEnergy|
  let score0 := energyDelta * 40
  let score1 := score0 + context.currentMood.confidence * 20
  let score2 := if 5 < context.moodStabilitySeconds then score1 + 10 else score1
  let score3 :=
    if 10 < context.moodStabilitySeconds then score2 + 5 else score2
  let playedRatio := context.trackPlayedSeconds / context.trackDuration
  let score4 := score3 + playedRatio * 15
  let score5 :=
    if context.currentMood.trend = .rising ∧ currentTrackEnergy < 0.5 then
      score4 + 10
    else if context.currentMood.trend = .falling ∧ 0.5 < currentTrackEnergy
        then score4 + 10
    else score4
  let moodShiftFromStart :=
    |currentMoodEnergy - context.moodAtTrackStart.energy|
  let score6 := score5 + moodShiftFromStart * 10
  min 100 (max 0 score6)

/-- Convert score to confidence per action band
(src/unnamed/part_003, TransitionEvaluator.scoreToConfidence, lines
578-599). -/
def scoreToConfidence (o : ResolvedOptions) (score : ℚ)
    (action : TransitionAction) : ℚ :=
  match action with
  | .let_play => max 0.5 (1 - score / o.thresholds.letPlay)
  | .wait =>
      let waitRange := o.thresholds.wait - o.thresholds.letPlay
      let positionInRange := (score - o.thresholds.letPlay) / waitRange
      0.4 + positionInRange * 0.3
  | .transition_now => min 1 (0.7 + (score - o.thresholds.wait) / 100)

/-- Human-readable reason for a scored decision
(src/unnamed/part_003, TransitionEvaluator.generateReason, lines 604-664). -/
def generateReason (context : TransitionContext) (_score : ℚ)
    (action : TransitionAction) : String :=
  let energyDelta :=
    |context.currentMood.energy - context.currentTrack.energy|
  let moodShift := context.currentMood.energy - context.moodAtTrackStart.energy
  let parts0 : List String :=
    if 0.4 < energyDelta then
      ["large energy mismatch (Δ" ++ numStr2 energyDelta ++ ")"]
    else if 0.25 < energyDelta then
      ["moderate energy mismatch (Δ" ++ numStr2 energyDelta ++ ")"]
    else if energyDelta < 0.15 then ["track energy matches mood"]
    else []
  let parts1 :=
    if context.currentMood.trend = .rising ∧ 0.2 < moodShift then
      parts0 ++ ["crowd energy rising"]
    else if context.currentMood.trend = .falling ∧ moodShift < -0.2 then
      parts0 ++ ["crowd energy dropping"]
    else parts0
  let parts2 :=
    if 10 < context.moodStabilitySeconds then
      parts1 ++ ["mood stable " ++ numStr context.moodStabilitySeconds ++ "s"]
    else parts1
  let parts :=
    if context.currentMood.confidence < 0.5 then parts2 ++ ["low confidence"]
    else parts2
  match action with
  | .transition_now =>
      if parts.length ≠ 0 then
        String.intercalate ", " parts ++ " - triggering early transition"
      else "Triggering early transition"
  | .wait =>
      if parts.length ≠ 0 then String.intercalate ", " parts ++ " - monitoring"
      else "Monitoring mood shift"
  | .let_play =>
      if parts.length ≠ 0 then
        String.intercalate ", " parts ++ " - continuing current track"
      else "Current track is appropriate"

/-- Evaluate whether to trigger an early transition: four hard rules in
order, then the urgency score with banded interpretation
(src/unnamed/part_003, TransitionEvaluator.evaluate, lines 417-506). -/
def evaluate (o : ResolvedOptions) (context : TransitionContext) :
    TransitionDecision :=
  let trackRemainingTime := context.trackDuration - context.trackPlayedSeconds
  if context.trackPlayedSeconds < o.minTrackPlayTime then
    { action := .let_play
      confidence := 1
      reason := "Minimum play time not reached (" ++
        numStr context.trackPlayedSeconds ++ "s / " ++
        numStr o.minTrackPlayTime ++ "s)"
      waitTime := none
      score := 0 }
  else if context.timeSinceLastTransition < o.cooldownPeriod then
    { action := .let_play
      confidence := 1
      reason := "Cooldown active (" ++
        numStr context.timeSinceLastTransition ++ "s / " ++
        numStr o.cooldownPeriod ++ "s)"
      waitTime := none
      score := 0 }
  else if trackRemainingTime < o.crossfadeDuration + 5 then
    { action := .let_play
      confidence := 1
      reason := "Track nearly finished (" ++ numStr trackRemainingTime ++
        "s remaining)"
      waitTime := none
      score := 0 }
  else if context.trackDuration < 2 * o.minTrackPlayTime then
    { action := .let_play
      confidence := 1
      reason := "Track too short for reactive mode (" ++
        numStr context.trackDuration ++ "s)"
      waitTime := none
      score := 0 }
  else
    let score := calculateUrgencyScore context
    if score ≤ o.thresholds.letPlay then
      { action := .let_play
        confidence := scoreToConfidence o score .let_play
        reason := generateReason context score .let_play
        waitTime := none
        score := score }
    else if score ≤ o.thresholds.wait then
      { action := .wait
        confidence := scoreToConfidence o score .wait
        reason := generateReason context score .wait
        waitTime := some 5
        score := score }
    else
      { action := .transition_now
        confidence := scoreToConfidence o score .transition_now
        reason := generateReason context score .transition_now
        waitTime := none
        score := score }

end TransitionEvaluator

/-- Constructor options of the song selector
(src/unnamed/part_003, interface SelectorOptions). -/
structure SelectorOptions where
  historySize : Option ℚ := none
  bpmTolerance : Option ℚ := none
  energyTolerance : Option ℚ := none
  preferSimilarBpm : Option Bool := none
deriving DecidableEq, Repr

/-- Selector options with all defaults applied
(src/unnamed/part_003, Required of SelectorOptions). -/
structure ResolvedSelectorOptions where
  historySize : ℚ
  bpmTolerance : ℚ
  energyTolerance : ℚ
  preferSimilarBpm : Bool
deriving DecidableEq, Repr

/-- Result of a selection (src/unnamed/part_003, interface
SelectionResult). -/
structure SelectionResult where
  track : Track
  reason : String
  score : ℚ
deriving DecidableEq, Repr

/-- Modelled from the spec: the MusicLibrary class of the music module is
not under src/ (only its interface documentation and callers are).  The
spec describes the catalog as a static list of items with getAll returning
every item and getByEnergyRange finding the tracks within an energy range;
the library is modelled as that list. -/
def MusicLibrary := List Track

/-- Modelled from the spec: getAll returns every catalog item. -/
def MusicLibrary.getAll (lib : MusicLibrary) : List Track := lib

/-- Modelled from the spec: getByEnergyRange finds the tracks whose energy
falls within the given inclusive range. -/
def MusicLibrary.getByEnergyRange (lib : MusicLibrary) (range : ℚ × ℚ) :
    List Track :=
  lib.filter (fun t => range.1 ≤ t.energy ∧ t.energy ≤ range.2)

namespace SongSelector

/-- The constructor's defaulting of options
(src/unnamed/part_003, SongSelector.constructor, lines 35-43).  Each absent
field takes its default; present fields are stored as given. -/
def mkResolvedOptions (options : SelectorOptions) : ResolvedSelectorOptions :=
  { historySize := options.historySize.getD 10
    bpmTolerance := options.bpmTolerance.getD 0.15
    energyTolerance := options.energyTolerance.getD 0.15
    preferSimilarBpm := options.preferSimilarBpm.getD true }

/-- Target energy range centered on the mood's energy, intersected with the
mood level's canonical range (src/unnamed/part_003,
SongSelector.getTargetEnergyRange, lines 201-211). -/
def getTargetEnergyRange (o : ResolvedSelectorOptions) (mood : MoodState) :
    ℚ × ℚ :=
  let baseRange := MOOD_ENERGY_RANGES mood.level
  let center := mood.energy
  (max baseRange.1 (center - o.energyTolerance),
   min baseRange.2 (center + o.energyTolerance))

/-- BPM range from the tolerance (src/unnamed/part_003,
SongSelector.getBpmRange, lines 216-222). -/
def getBpmRange (o : ResolvedSelectorOptions) (bpm : ℚ) : ℚ × ℚ :=
  (bpm * (1 - o.bpmTolerance), bpm * (1 + o.bpmTolerance))

/-- Tier-1 candidates: energy range match, history exclusion, optional BPM
restriction kept only when it leaves at least 3 tracks
(src/unnamed/part_003, SongSelector.getCandidates, lines 77-97). -/
def getCandidates (lib : MusicLibrary) (playHistory : List String)
    (o : ResolvedSelectorOptions) (mood : MoodState)
    (currentTrack : Option Track) : List Track :=
  let energyRange := getTargetEnergyRange o mood
  let candidates0 := lib.getByEnergyRange energyRange
  let candidates := candidates0.filter (fun t => !playHistory.contains t.id)
  match currentTrack with
  | some ct =>
      if o.preferSimilarBpm then
        let bpmRange := getBpmRange o ct.bpm
        let bpmFiltered :=
          candidates.filter (fun t =>
            bpmRange.1 ≤ t.bpm ∧ t.bpm ≤ bpmRange.2)
        if 3 ≤ bpmFiltered.length then bpmFiltered else candidates
      else candidates
  | none => candidates

/-- Tier-2 candidates with a widened energy range and only the 5 most
recent plays excluded (src/unnamed/part_003,
SongSelector.getFallbackCandidates, lines 102-117). -/
def getFallbackCandidates (lib : MusicLibrary) (playHistory : List String)
    (mood : MoodState) : List Track :=
  let targetEnergy := mood.energy
  let expandedRange := (max 0 (targetEnergy - 0.3), min 1 (targetEnergy + 0.3))
  let candidates := lib.getByEnergyRange expandedRange
  let reducedHistory := playHistory.take 5
  candidates.filter (fun t => !reducedHistory.contains t.id)

/-- JavaScript's String.prototype.replace with a string pattern replaces
only the first occurrence; the selector uses key.replace to strip the
minor-mode marker (src/unnamed/part_003, line 234). -/
def removeFirstChar (c : Char) : List Char → List Char
  | [] => []
  | x :: xs => if x = c then xs else x :: removeFirstChar c xs

/-- Key compatibility score in [0,1] (src/unnamed/part_003,
SongSelector.getKeyCompatibility, lines 228-250). -/
def getKeyCompatibility (key1 key2 : String) : ℚ :=
  if key1 = key2 then 1
  else
    let isMinor1 := key1.contains 'm'
    let root1 := String.mk (removeFirstChar 'm' key1.data)
    let isMinor2 := key2.contains 'm'
    let root2 := String.mk (removeFirstChar 'm' key2.data)
    if root1 = root2 then 0.8
    else if isMinor1 ≠ isMinor2 then 0.6
    else 0.3

/-- Score a track against the mood and the current track
(src/unnamed/part_003, SongSelector.scoreTrack, lines 151-196). -/
def scoreTrack (track : Track) (mood : MoodState)
    (currentTrack : Option Track) : ℚ :=
  let energyDiff := |track.energy - mood.energy|
  let score0 := max 0 (40 - energyDiff * 100)
  let score1 :=
    match currentTrack with
    | some ct =>
        let bpmRatio := track.bpm / ct.bpm
        let bestBpmMatch :=
          min (min |bpmRatio - 1| |bpmRatio - 2|) |bpmRatio - 0.5|
        score0 + max 0 (30 - bestBpmMatch * 100)
    | none => score0 + 15
  let score2 :=
    match currentTrack with
    | some ct => score1 + getKeyCompatibility track.key ct.key * 20
    | none => score1 + 10
  if mood.trend = .rising ∧ mood.energy < track.energy then score2 + 10
  else if mood.trend = .falling ∧ track.energy < mood.energy then score2 + 10
  else if mood.trend = .stable then score2 + 5
  else score2

/-- Printable mood-level name used in selection reasons
(the template string at src/unnamed/part_003, line 284). -/
def levelName : MoodLevel → String
  | .chill => "chill"
  | .warming_up => "warming_up"
  | .energetic => "energetic"
  | .peak => "peak"
  | .cooling_down => "cooling_down"

/-- Human-readable reason for a selection (src/unnamed/part_003,
SongSelector.generateReason, lines 255-287). -/
def generateReason (track : Track) (mood : MoodState)
    (currentTrack : Option Track) : String :=
  let energyDiff := |track.energy - mood.energy|
  let parts0 : List String :=
    if energyDiff < 0.1 then ["perfect energy match"]
    else if energyDiff < 0.2 then ["good energy match"]
    else []
  let parts1 :=
    match currentTrack with
    | some ct =>
        let bpmRatio := track.bpm / ct.bpm
        if |bpmRatio - 1| < 0.05 then parts0 ++ ["matching BPM"]
        else if |bpmRatio - 2| < 0.1 ∨ |bpmRatio - 0.5| < 0.1 then
          parts0 ++ ["compatible tempo"]
        else parts0
    | none => parts0
  let parts := parts1 ++ [levelName mood.level ++ " mood"]
  String.intercalate ", " parts

/-- Pick from the top of the scored candidates; rand models the single
Math.random() call of the invocation, a value in [0,1)
(src/unnamed/part_003, SongSelector.selectBestCandidate, lines 122-146).
Indexing out of range yields none, modelling an undefined track. -/
def selectBestCandidate (_o : ResolvedSelectorOptions) (candidates : List Track)
    (mood : MoodState) (currentTrack : Option Track) (rand : ℚ) :
    Option SelectionResult :=
  let scored := candidates.map (fun t => (t, scoreTrack t mood currentTrack))
  let sorted := scored.mergeSort (fun a b => b.2 ≤ a.2)
  let topCount := min 5 ⌈(sorted.length : ℚ) * 0.3⌉.toNat
  let topCandidates := sorted.take topCount
  match topCandidates.get? (⌊rand * (topCandidates.length : ℚ)⌋.toNat) with
  | none => none
  | some selected =>
      some { track := selected.1
             reason := generateReason selected.1 mood currentTrack
             score := selected.2 }

/-- Select the next track: tier-1 candidates, then tier-2, then the
absolute fallback of a random unplayed track or any track at all
(src/unnamed/part_003, SongSelector.selectNext, lines 50-72).  rand models
the single Math.random() call of whichever branch runs, a value in
[0,1). -/
def selectNext (lib : MusicLibrary) (playHistory : List String)
    (o : ResolvedSelectorOptions) (mood : MoodState)
    (currentTrack : Option Track) (rand : ℚ) : Option SelectionResult :=
  let candidates := getCandidates lib playHistory o mood currentTrack
  if candidates.isEmpty then
    let fallbackCandidates := getFallbackCandidates lib playHistory mood
    if fallbackCandidates.isEmpty then
      let allTracks := lib.getAll
      let available := allTracks.filter (fun t => !playHistory.contains t.id)
      if 0 < available.length then
        match available.get? (⌊rand * (available.length : ℚ)⌋.toNat) with
        | none => none
        | some t =>
            some { track := t, reason := "fallback (no matching tracks)",
                   score := 0 }
      else
        match allTracks.get? (⌊rand * (allTracks.length : ℚ)⌋.toNat) with
        | none => none
        | some t =>
            some { track := t, reason := "fallback (no matching tracks)",
                   score := 0 }
    else selectBestCandidate o fallbackCandidates mood currentTrack rand
  else selectBestCandidate o candidates mood currentTrack rand

end SongSelector

/-!  Theorems about the embedded program.  -/

/-- C1: whenever one of the four hard rules fires — minimum play time not
reached, cooldown active, track nearly finished, or track too short —
evaluate returns let_play with score 0 and confidence 1; in particular it
does not return transition_now, so a played time below minTrackPlayTime or
a time since the last transition below cooldownPeriod forces let_play. -/
theorem evaluate_hard_rules_force_let_play (o : ResolvedOptions)
    (ctx : TransitionContext)
    (h : ctx.trackPlayedSeconds < o.minTrackPlayTime ∨
      ctx.timeSinceLastTransition < o.cooldownPeriod ∨
      ctx.trackDuration - ctx.trackPlayedSeconds < o.crossfadeDuration + 5 ∨
      ctx.trackDuration < 2 * o.minTrackPlayTime) :
    (TransitionEvaluator.evaluate o ctx).action = TransitionAction.let_play ∧
    (TransitionEvaluator.evaluate o ctx).score = 0 ∧
    (TransitionEvaluator.evaluate o ctx).confidence = 1 ∧
    (TransitionEvaluator.evaluate o ctx).action ≠
      TransitionAction.transition_now := by
  simp only [TransitionEvaluator.evaluate]
  split_ifs with h1 h2 h3 h4 h5 h6 <;> simp_all

/-- Witness for C1 at a concrete context: a track played 10 seconds with
default options falls under hard rule 1. -/
theorem evaluate_hard_rules_force_let_play_witness :
    (TransitionEvaluator.evaluate
      (TransitionEvaluator.mkResolvedOptions {})
      { currentTrack := ⟨"a", 120, "Am", 0.2, 300⟩
        currentMood := ⟨.peak, 0.8, .rising, 0, 1⟩
        moodAtTrackStart := ⟨.warming_up, 0.35, .stable, 0, 1⟩
        trackPlayedSeconds := 10
        trackDuration := 300
        timeSinceLastTransition := 100
        moodStabilitySeconds := 12 }).action = TransitionAction.let_play :=
  (evaluate_hard_rules_force_let_play _ _
    (Or.inl (by norm_num [TransitionEvaluator.mkResolvedOptions]))).1

/-- C2: in the scenario mood energy 0.8, confidence 1, stability 12 s,
track energy 0.2, played 200 of 300 s, 100 s since the last transition —
for any trend, any mood level and timestamp, and any mood at track start —
the urgency score is at least 61 and evaluate (with default options)
returns transition_now. -/
theorem urgency_scenario_forces_transition (t : Track) (ht : t.energy = 0.2)
    (lvl : MoodLevel) (tr : Trend) (ts : ℚ) (m0 : MoodState) :
    61 ≤ TransitionEvaluator.calculateUrgencyScore
      { currentTrack := t
        currentMood := ⟨lvl, 0.8, tr, ts, 1⟩
        moodAtTrackStart := m0
        trackPlayedSeconds := 200
        trackDuration := 300
        timeSinceLastTransition := 100
        moodStabilitySeconds := 12 } ∧
    (TransitionEvaluator.evaluate (TransitionEvaluator.mkResolvedOptions {})
      { currentTrack := t
        currentMood := ⟨lvl, 0.8, tr, ts, 1⟩
        moodAtTrackStart := m0
        trackPlayedSeconds := 200
        trackDuration := 300
        timeSinceLastTransition := 100
        moodStabilitySeconds := 12 }).action =
      TransitionAction.transition_now := by
  have habs : (0:ℚ) ≤ |0.8 - m0.energy| * 10 := by positivity
  have hs : 61 ≤ TransitionEvaluator.calculateUrgencyScore
      { currentTrack := t
        currentMood := ⟨lvl, 0.8, tr, ts, 1⟩
        moodAtTrackStart := m0
        trackPlayedSeconds := 200
        trackDuration := 300
        timeSinceLastTransition := 100
        moodStabilitySeconds := 12 } := by
    simp only [TransitionEvaluator.calculateUrgencyScore, ht]
    rcases tr with _ | _ | _
    all_goals simp only [le_min_iff, le_max_iff]
    all_goals norm_num [abs_of_nonneg]
    all_goals try split_ifs at *
    all_goals linarith [abs_nonneg ((4:ℚ) / 5 - m0.energy)]
  refine ⟨hs, ?_⟩
  have ho : TransitionEvaluator.mkResolvedOptions {} =
      ⟨30, 45, 3000, ⟨30, 60⟩, 8⟩ := rfl
  rw [ho]
  simp only [TransitionEvaluator.evaluate]
  split_ifs with h1 h2 h3 h4 h5 h6
  · norm_num at h1
  · norm_num at h2
  · norm_num at h3
  · norm_num at h4
  · exact absurd h5 (by linarith)
  · exact absurd h6 (by linarith)
  · rfl

/-- Witness for C2: the scenario with a concrete track of energy 0.2,
rising trend, and warming-up start mood. -/
theorem urgency_scenario_forces_transition_witness :
    (TransitionEvaluator.evaluate (TransitionEvaluator.mkResolvedOptions {})
      { currentTrack := ⟨"a", 120, "Am", 0.2, 300⟩
        currentMood := ⟨.peak, 0.8, .rising, 0, 1⟩
        moodAtTrackStart := ⟨.warming_up, 0.35, .stable, 0, 1⟩
        trackPlayedSeconds := 200
        trackDuration := 300
        timeSinceLastTransition := 100
        moodStabilitySeconds := 12 }).action =
      TransitionAction.transition_now :=
  (urgency_scenario_forces_transition ⟨"a", 120, "Am", 0.2, 300⟩ rfl
    .peak .rising 0 ⟨.warming_up, 0.35, .stable, 0, 1⟩).2

/-- C5: with all four hard rules passed and the default thresholds 30/60,
the urgency score s maps to the action bands of the spec with the banded
confidence formulas: s ≤ 30 gives let_play with confidence
max 0.5 (1 - s/30); 30 < s ≤ 60 gives wait with waitTime 5 and confidence
0.4 + 0.3*(s-30)/30, which lies in [0.4, 0.7]; 60 < s gives transition_now
with confidence min 1 (0.7 + (s-60)/100). -/
theorem evaluate_score_bands (o : ResolvedOptions) (ctx : TransitionContext)
    (hlp : o.thresholds.letPlay = 30) (hw : o.thresholds.wait = 60)
    (r1 : o.minTrackPlayTime ≤ ctx.trackPlayedSeconds)
    (r2 : o.cooldownPeriod ≤ ctx.timeSinceLastTransition)
    (r3 : o.crossfadeDuration + 5 ≤ ctx.trackDuration - ctx.trackPlayedSeconds)
    (r4 : 2 * o.minTrackPlayTime ≤ ctx.trackDuration) :
    (TransitionEvaluator.calculateUrgencyScore ctx ≤ 30 →
      (TransitionEvaluator.evaluate o ctx).action = TransitionAction.let_play ∧
      (TransitionEvaluator.evaluate o ctx).confidence =
        max 0.5 (1 - TransitionEvaluator.calculateUrgencyScore ctx / 30)) ∧
    (30 < TransitionEvaluator.calculateUrgencyScore ctx →
      TransitionEvaluator.calculateUrgencyScore ctx ≤ 60 →
      (TransitionEvaluator.evaluate o ctx).action = TransitionAction.wait ∧
      (TransitionEvaluator.evaluate o ctx).waitTime = some 5 ∧
      (TransitionEvaluator.evaluate o ctx).confidence =
        0.4 + 0.3 * ((TransitionEvaluator.calculateUrgencyScore ctx - 30) / 30) ∧
      0.4 ≤ (TransitionEvaluator.evaluate o ctx).confidence ∧
      (TransitionEvaluator.evaluate o ctx).confidence ≤ 0.7) ∧
    (60 < TransitionEvaluator.calculateUrgencyScore ctx →
      (TransitionEvaluator.evaluate o ctx).action =
        TransitionAction.transition_now ∧
      (TransitionEvaluator.evaluate o ctx).confidence =
        min 1 (0.7 + (TransitionEvaluator.calculateUrgencyScore ctx - 60) / 100)) := by
  simp only [TransitionEvaluator.evaluate]
  split_ifs with h1 h2 h3 h4 h5 h6
  · linarith
  · linarith
  · linarith
  · linarith
  · rw [hlp] at h5
    refine ⟨fun _ => ⟨rfl, ?_⟩, fun hgt _ => absurd h5 (by linarith),
      fun hgt => absurd h5 (by linarith)⟩
    simp only [TransitionEvaluator.scoreToConfidence, hlp]
  · rw [hlp] at h5
    rw [hw] at h6
    refine ⟨fun hle => absurd hle h5, fun _ _ => ⟨rfl, rfl, ?_, ?_, ?_⟩,
      fun hgt => absurd h6 (by linarith)⟩
    · simp only [TransitionEvaluator.scoreToConfidence, hlp, hw]
      ring
    · simp only [TransitionEvaluator.scoreToConfidence, hlp, hw]
      have hp : (0:ℚ) ≤
          (TransitionEvaluator.calculateUrgencyScore ctx - 30) / (60 - 30) :=
        div_nonneg (by linarith) (by norm_num)
      linarith
    · simp only [TransitionEvaluator.scoreToConfidence, hlp, hw]
      have hp : (TransitionEvaluator.calculateUrgencyScore ctx - 30) /
          (60 - 30) ≤ 1 := by
        rw [div_le_one (by norm_num)]
        linarith
      linarith
  · rw [hlp] at h5
    rw [hw] at h6
    refine ⟨fun hle => absurd hle h5, fun _ hle => absurd hle h6,
      fun _ => ⟨rfl, ?_⟩⟩
    simp only [TransitionEvaluator.scoreToConfidence, hw]

/-- Bounding a product of the data-confidence and consistency-confidence
shapes appearing in MoodAnalyzer.calculateConfidence. -/
theorem confidence_product_bounds (q : ℚ) (x : ℝ) (hq : 0 < q) (hx : 0 ≤ x) :
    0 < ((min 1 q : ℚ) : ℝ) * max 0.3 (1 - x / 50) ∧
    ((min 1 q : ℚ) : ℝ) * max 0.3 (1 - x / 50) ≤ 1 := by
  have hd1 : ((min 1 q : ℚ) : ℝ) ≤ 1 := by exact_mod_cast min_le_left 1 q
  have hd0 : (0:ℝ) < ((min 1 q : ℚ) : ℝ) := by
    exact_mod_cast lt_min one_pos hq
  have hm1 : max (0.3:ℝ) (1 - x / 50) ≤ 1 := by
    apply max_le (by norm_num)
    have : (0:ℝ) ≤ x / 50 := by positivity
    linarith
  have hm0 : (0:ℝ) < max (0.3:ℝ) (1 - x / 50) :=
    lt_max_of_lt_left (by norm_num)
  constructor
  · exact mul_pos hd0 hm0
  · calc ((min 1 q : ℚ) : ℝ) * max 0.3 (1 - x / 50)
        ≤ 1 * 1 := mul_le_mul hd1 hm1 (le_of_lt hm0) (by norm_num)
      _ = 1 := by norm_num

/-- C3 counterexample: a window of two samples of value 0 with the default
5000 ms smoothing window gives confidence 1/25, well below 0.3, although it
holds at least 2 samples — refuting the claim that 2 or more samples force
confidence into [0.3, 1]. -/
theorem calculateConfidence_below_03_counterexample :
    2 ≤ ([0, 0] : List ℚ).length ∧
    MoodAnalyzer.calculateConfidence [0, 0] 5000 = (1:ℝ)/25 ∧
    MoodAnalyzer.calculateConfidence [0, 0] 5000 < 0.3 := by
  refine ⟨by norm_num, ?_, ?_⟩ <;>
    · simp only [MoodAnalyzer.calculateConfidence, List.length_cons,
        List.length_nil, List.map_cons, List.map_nil, List.sum_cons,
        List.sum_nil]
      norm_num [min_def, max_def, Real.sqrt_zero]

/-- C3 amended: with fewer than 2 samples the confidence is exactly 0.5;
with 2 or more samples the confidence is the product of the data
confidence min 1 (n/(W/100)) and the consistency confidence
max 0.3 (1 - stddev/50), a value in (0, 1]; only the consistency factor is
bounded below by 0.3, and the product drops below 0.3 whenever the window
holds far fewer samples than W/100. -/
theorem calculateConfidence_amended_bounds (values : List ℚ) (W : ℚ)
    (hW : 0 < W) :
    (values.length < 2 → MoodAnalyzer.calculateConfidence values W = 0.5) ∧
    (2 ≤ values.length →
      0 < MoodAnalyzer.calculateConfidence values W ∧
      MoodAnalyzer.calculateConfidence values W ≤ 1) := by
  constructor
  · intro h
    simp [MoodAnalyzer.calculateConfidence, h]
  · intro h
    have hnot : ¬ values.length < 2 := not_lt.mpr h
    have hq : (0:ℚ) < (values.length : ℚ) / (W / 100) := by
      apply div_pos
      · exact_mod_cast lt_of_lt_of_le (by norm_num) h
      · exact div_pos hW (by norm_num)
    simp only [MoodAnalyzer.calculateConfidence, if_neg hnot]
    exact confidence_product_bounds _ _ hq (Real.sqrt_nonneg _)

/-- Witness for the amended C3: the empty window evaluates to exactly
0.5. -/
theorem calculateConfidence_amended_bounds_witness :
    MoodAnalyzer.calculateConfidence [] 5000 = 0.5 :=
  (calculateConfidence_amended_bounds [] 5000 (by norm_num)).1 (by norm_num)

/-- C4 counterexample: the server-side energy-to-mood-level mapping takes
no trend input at all, and at energy 0.9 — above 0.85 — it returns peak
(here from previous level energetic, the state in which a falling trend
with high energy would occur), not cooling_down. -/
theorem energyToMoodLevel_no_cooling_down_counterexample :
    energyToMoodLevel 0.9 (some MoodLevel.energetic) = MoodLevel.peak ∧
    MoodLevel.peak ≠ MoodLevel.cooling_down ∧ (0.85:ℚ) < 0.9 := by
  refine ⟨?_, by simp, by norm_num⟩
  simp only [energyToMoodLevel, Option.isSome_some]
  norm_num

/-- C4 amended: the cooling_down rule for energy above 0.85 with a falling
trend holds only for the browser-side mapping MoodAnalyzer.energyToLevel
(which otherwise maps such energy to peak); the server-side
energyToMoodLevel takes no trend and maps every energy above its top
threshold — 0.65 plus the 0.05 hysteresis when a previous level exists —
to peak, regardless of the previous level. -/
theorem energy_above_top_threshold_amended (e : ℚ) (tr : Trend)
    (cl pl : MoodLevel) :
    (0.85 < e → MoodAnalyzer.energyToLevel e tr cl =
      (if tr = Trend.falling then MoodLevel.cooling_down
       else MoodLevel.peak)) ∧
    (0.65 + 0.05 < e → energyToMoodLevel e (some pl) = MoodLevel.peak) ∧
    (0.65 < e → energyToMoodLevel e none = MoodLevel.peak) := by
  refine ⟨fun he => ?_, fun he => ?_, fun he => ?_⟩
  · have h1 : ¬ e < 0.1 - (if cl = MoodLevel.chill then (0:ℚ) else 0.03) := by
      split_ifs <;> linarith
    have h2 : ¬ e < 0.3 -
        (if cl = MoodLevel.warming_up then (0:ℚ) else 0.03) := by
      split_ifs <;> linarith
    have h3 : ¬ e < 0.6 -
        (if cl = MoodLevel.energetic then (0:ℚ) else 0.03) := by
      split_ifs <;> linarith
    have h4 : ¬ e < (0.85:ℚ) := by linarith
    simp only [MoodAnalyzer.energyToLevel, if_neg h1, if_neg h2, if_neg h3,
      if_neg h4]
    rcases tr with _ | _ | _ <;> simp [le_of_lt he]
  · have k1 : ¬ e ≤ (0.2:ℚ) - 0.05 := by linarith
    have k2 : ¬ e ≤ (0.4:ℚ) - 0.05 := by linarith
    have k3 : ¬ e ≤ (0.65:ℚ) - 0.05 := by linarith
    have k4 : (0.65:ℚ) + 0.05 < e := by linarith
    simp only [energyToMoodLevel, Option.isSome_some, if_true, if_neg k1,
      if_neg k2, if_neg k3, if_pos k4]
  · have k1 : ¬ e ≤ (0.2:ℚ) - 0 := by linarith
    have k2 : ¬ e ≤ (0.4:ℚ) - 0 := by linarith
    have k3 : ¬ e ≤ (0.65:ℚ) - 0 := by linarith
    have k4 : (0.65:ℚ) + 0 < e := by linarith
    simp only [energyToMoodLevel, Option.isSome_none, Bool.false_eq_true,
      if_false, if_neg k1, if_neg k2, if_neg k3, if_pos k4]

/-- Witness for the amended C4: energy 0.9 with a falling trend on the
browser mapping, and energy 0.72 — just above the 0.7 threshold with a
previous level, above 0.65 without — on the server mapping. -/
theorem energy_above_top_threshold_amended_witness :
    MoodAnalyzer.energyToLevel 0.9 Trend.falling MoodLevel.energetic =
      MoodLevel.cooling_down ∧
    energyToMoodLevel 0.9 (some MoodLevel.energetic) = MoodLevel.peak ∧
    energyToMoodLevel 0.72 (some MoodLevel.energetic) = MoodLevel.peak ∧
    energyToMoodLevel 0.72 none = MoodLevel.peak := by
  have h := energy_above_top_threshold_amended 0.9 Trend.falling
    MoodLevel.energetic MoodLevel.energetic
  have h72 := energy_above_top_threshold_amended 0.72 Trend.falling
    MoodLevel.energetic MoodLevel.energetic
  refine ⟨?_, h.2.1 (by norm_num), h72.2.1 (by norm_num),
    h72.2.2 (by norm_num)⟩
  rw [h.1 (by norm_num)]
  simp

/-- C8: for a motion window whose samples all lie inside the smoothing
window (the invariant processMotion's filter maintains), the smoothed
value is 0 for an empty window and otherwise equals the recency-weighted
average with weight 1 - age/W (whose weight sum is positive); the mapped
energy always lies in [0, 1]; and a window of all-20 samples yields energy
exactly (0.2) ^ (0.8) under the real power function.  The filter itself
only keeps samples with age below W. -/
theorem smoothed_motion_weighted_average_and_energy
    (history : List MoodAnalyzer.MotionSample) (now W : ℚ) (hW : 0 < W)
    (hwin : ∀ e ∈ history, now - W < e.timestamp) :
    (history = [] → MoodAnalyzer.calculateSmoothedMotion history now W = 0) ∧
    (history ≠ [] →
      0 < (history.map (fun e => 1 - (now - e.timestamp) / W)).sum ∧
      MoodAnalyzer.calculateSmoothedMotion history now W =
        (history.map
          (fun e => e.value * (1 - (now - e.timestamp) / W))).sum /
        (history.map (fun e => 1 - (now - e.timestamp) / W)).sum) ∧
    ((∀ e ∈ history, e.value = 20) → history ≠ [] →
      MoodAnalyzer.motionToEnergy
        (MoodAnalyzer.calculateSmoothedMotion history now W) =
        Real.rpow 0.2 0.8) ∧
    (∀ m : ℚ, 0 ≤ MoodAnalyzer.motionToEnergy m ∧
      MoodAnalyzer.motionToEnergy m ≤ 1) ∧
    (∀ h0 : List MoodAnalyzer.MotionSample,
      ∀ e ∈ MoodAnalyzer.pruneHistory h0 now W, now - W < e.timestamp) := by
  have hwpos : ∀ e ∈ history, 0 < 1 - (now - e.timestamp) / W := by
    intro e he
    have h1 : (now - e.timestamp) / W < 1 :=
      (div_lt_one hW).mpr (by linarith [hwin e he])
    linarith
  have hsumpos : history ≠ [] →
      0 < (history.map (fun e => 1 - (now - e.timestamp) / W)).sum := by
    intro hne
    apply List.sum_pos
    · intro x hx
      obtain ⟨e, he, rfl⟩ := List.mem_map.1 hx
      exact hwpos e he
    · simpa using hne
  have hsmooth : history ≠ [] →
      MoodAnalyzer.calculateSmoothedMotion history now W =
        (history.map
          (fun e => e.value * (1 - (now - e.timestamp) / W))).sum /
        (history.map (fun e => 1 - (now - e.timestamp) / W)).sum := by
    intro hne
    have hie : history.isEmpty = false := by simp [hne]
    simp only [MoodAnalyzer.calculateSmoothedMotion, hie,
      Bool.false_eq_true, if_false, if_pos (hsumpos hne)]
  refine ⟨?_, fun hne => ⟨hsumpos hne, hsmooth hne⟩, ?_, ?_, ?_⟩
  · intro h
    simp [MoodAnalyzer.calculateSmoothedMotion, h]
  · intro hval hne
    have h20 : MoodAnalyzer.calculateSmoothedMotion history now W = 20 := by
      rw [hsmooth hne]
      have hmap : history.map
          (fun e => e.value * (1 - (now - e.timestamp) / W)) =
          history.map (fun e => 20 * (1 - (now - e.timestamp) / W)) := by
        apply List.map_congr_left
        intro e he
        rw [hval e he]
      rw [hmap, List.sum_map_mul_left,
        mul_div_assoc, div_self (ne_of_gt (hsumpos hne)), mul_one]
    rw [h20]
    simp only [MoodAnalyzer.motionToEnergy]
    have hc : ((20:ℚ) : ℝ) / 100 = 0.2 := by norm_num
    rw [hc]
    have h0 : (0:ℝ) ≤ Real.rpow 0.2 0.8 := Real.rpow_nonneg (by norm_num) _
    have h1 : Real.rpow 0.2 0.8 ≤ 1 :=
      Real.rpow_le_one (by norm_num) (by norm_num) (by norm_num)
    rw [max_eq_right h0, min_eq_right h1]
  · intro m
    simp only [MoodAnalyzer.motionToEnergy]
    exact ⟨le_min (by norm_num) (le_max_left 0 _), min_le_left 1 _⟩
  · intro h0 e he
    have := List.mem_filter.1 he
    simpa using this.2

/-- Witness for C8: a single sample of value 20 at the window edge case,
with W = 5000, evaluates to energy (0.2) ^ (0.8). -/
theorem smoothed_motion_weighted_average_and_energy_witness :
    MoodAnalyzer.motionToEnergy
      (MoodAnalyzer.calculateSmoothedMotion [⟨20, 1000⟩] 1000 5000) =
      Real.rpow 0.2 0.8 :=
  ((smoothed_motion_weighted_average_and_energy [⟨20, 1000⟩] 1000 5000
      (by norm_num)
      (by intro e he; simp at he; rw [he]; norm_num)).2.2.1)
    (by intro e he; simp at he; rw [he])
    (by simp)

/-- A random draw in [0,1) scaled by a positive list length floors to a
valid index. -/
theorem floor_rand_index_lt (rand : ℚ) (n : ℕ) (hr0 : 0 ≤ rand)
    (hr1 : rand < 1) (hn : 0 < n) : (⌊rand * (n : ℚ)⌋).toNat < n := by
  have h1 : ⌊rand * (n : ℚ)⌋ < (n : ℤ) := by
    apply Int.floor_lt.mpr
    push_cast
    calc rand * (n : ℚ) < 1 * (n : ℚ) :=
          mul_lt_mul_of_pos_right hr1 (by exact_mod_cast hn)
      _ = (n : ℚ) := one_mul _
  have h0 : 0 ≤ ⌊rand * (n : ℚ)⌋ := Int.floor_nonneg.mpr (by positivity)
  omega

/-- The floored index equals i exactly when the scaled draw lies in
[i, i+1) — each index is hit by an interval of draws of equal width. -/
theorem floor_rand_index_eq_iff (rand : ℚ) (n : ℕ) (hr0 : 0 ≤ rand)
    (i : ℕ) :
    (⌊rand * (n : ℚ)⌋).toNat = i ↔
      (i : ℚ) ≤ rand * (n : ℚ) ∧ rand * (n : ℚ) < (i : ℚ) + 1 := by
  have h0 : 0 ≤ ⌊rand * (n : ℚ)⌋ := Int.floor_nonneg.mpr (by positivity)
  constructor
  · intro h
    have hz : ⌊rand * (n : ℚ)⌋ = (i : ℤ) := by omega
    have := Int.floor_eq_iff.mp hz
    constructor
    · exact_mod_cast this.1
    · exact_mod_cast this.2
  · intro h
    have hz : ⌊rand * (n : ℚ)⌋ = (i : ℤ) := by
      apply Int.floor_eq_iff.mpr
      constructor
      · exact_mod_cast h.1
      · exact_mod_cast h.2
    omega

/-- C6: when tier 1 and tier 2 both yield no candidates and the catalog is
non-empty, selectNext returns (never fails) a track drawn from the tracks
not in the play history — from the full catalog when none remain — with
the "fallback" reason and score 0; the index is the floor of rand times
the pool size, so each pool element is selected exactly for an interval of
draws of width 1/pool-size, i.e. uniformly for a uniform draw; with empty
history the pool is the full catalog. -/
theorem selectNext_absolute_fallback (lib : MusicLibrary)
    (playHistory : List String) (o : ResolvedSelectorOptions)
    (mood : MoodState) (currentTrack : Option Track) (rand : ℚ)
    (available pool : List Track) (idx : ℕ)
    (hr0 : 0 ≤ rand) (hr1 : rand < 1) (hlib : lib ≠ [])
    (h1 : SongSelector.getCandidates lib playHistory o mood currentTrack = [])
    (h2 : SongSelector.getFallbackCandidates lib playHistory mood = [])
    (hav : available = lib.filter (fun t => !playHistory.contains t.id))
    (hpool : pool = if 0 < available.length then available else lib)
    (hidx : idx = (⌊rand * (pool.length : ℚ)⌋).toNat) :
    (∃ ht : idx < pool.length,
      SongSelector.selectNext lib playHistory o mood currentTrack rand =
        some { track := pool.get ⟨idx, ht⟩
               reason := "fallback (no matching tracks)"
               score := 0 }) ∧
    (playHistory = [] → pool = lib) ∧
    (available = [] → pool = lib) ∧
    (available ≠ [] → pool = available) ∧
    (∀ i : ℕ, i < pool.length →
      (idx = i ↔ (i : ℚ) ≤ rand * (pool.length : ℚ) ∧
        rand * (pool.length : ℚ) < (i : ℚ) + 1)) := by
  subst hav
  by_cases hA : 0 < (lib.filter (fun t => !playHistory.contains t.id)).length
  · rw [hpool, if_pos hA] at hidx ⊢
    subst hidx
    have hlt : (⌊rand * ((lib.filter
        (fun t => !playHistory.contains t.id)).length : ℚ)⌋).toNat <
        (lib.filter (fun t => !playHistory.contains t.id)).length :=
      floor_rand_index_lt rand _ hr0 hr1 hA
    refine ⟨⟨hlt, ?_⟩, ?_, ?_, fun _ => rfl,
      fun i _ => floor_rand_index_eq_iff rand _ hr0 i⟩
    · have hget : (lib.filter (fun t => !playHistory.contains t.id)).get?
          ((⌊rand * ((lib.filter
            (fun t => !playHistory.contains t.id)).length : ℚ)⌋).toNat) =
          some ((lib.filter (fun t => !playHistory.contains t.id)).get
            ⟨_, hlt⟩) := List.get?_eq_get hlt
      simp only [SongSelector.selectNext, h1, h2, List.isEmpty_nil,
        MusicLibrary.getAll, if_true, if_pos hA]
      rw [hget]
    · intro hh
      subst hh
      exact List.filter_eq_self.mpr (fun a _ => by simp)
    · intro hemp
      rw [hemp] at hA
      simp at hA
  · rw [hpool, if_neg hA] at hidx ⊢
    subst hidx
    have hlen : 0 < lib.length := List.length_pos.mpr hlib
    have hlt : (⌊rand * (lib.length : ℚ)⌋).toNat < lib.length :=
      floor_rand_index_lt rand _ hr0 hr1 hlen
    have hempty : (lib.filter (fun t => !playHistory.contains t.id)) = [] :=
      List.length_eq_zero.mp (by omega)
    refine ⟨⟨hlt, ?_⟩, fun _ => rfl, fun _ => rfl,
      fun hne => absurd hempty hne,
      fun i _ => floor_rand_index_eq_iff rand _ hr0 i⟩
    have hget : lib.get? ((⌊rand * (lib.length : ℚ)⌋).toNat) =
        some (lib.get ⟨_, hlt⟩) := List.get?_eq_get hlt
    simp only [SongSelector.selectNext, h1, h2, List.isEmpty_nil,
      MusicLibrary.getAll, if_true, if_neg hA]
    rw [hget]

/-- Witness for C6: a one-track catalog whose track matches neither tier
for an energetic mood of energy 0.5, empty history, and draw 0. -/
theorem selectNext_absolute_fallback_witness :
    SongSelector.selectNext [⟨"z", 120, "Am", 0, 300⟩] []
      (SongSelector.mkResolvedOptions {}) ⟨.energetic, 0.5, .stable, 0, 1⟩
      none 0 =
      some { track := ⟨"z", 120, "Am", 0, 300⟩
             reason := "fallback (no matching tracks)"
             score := 0 } := by
  obtain ⟨⟨ht, hsel⟩, -, -, -, -⟩ := selectNext_absolute_fallback
    [⟨"z", 120, "Am", 0, 300⟩] [] (SongSelector.mkResolvedOptions {})
    ⟨.energetic, 0.5, .stable, 0, 1⟩ none 0
    [⟨"z", 120, "Am", 0, 300⟩] [⟨"z", 120, "Am", 0, 300⟩] 0
    (by norm_num) (by norm_num) (by simp)
    (by simp only [SongSelector.getCandidates,
        SongSelector.getTargetEnergyRange, SongSelector.mkResolvedOptions,
        MusicLibrary.getByEnergyRange, MOOD_ENERGY_RANGES]
        norm_num)
    (by simp only [SongSelector.getFallbackCandidates,
        MusicLibrary.getByEnergyRange]
        norm_num)
    (by simp) (by simp) (by simp)
  exact hsel

/-- C9 counterexample: passing a negative minTrackPlayTime, cooldownPeriod
or crossfadeDuration to the TransitionEvaluator constructor, or a negative
historySize to the SongSelector constructor, stores the negative value as
given — the constructors do not clamp out-of-range tunables. -/
theorem constructors_store_negative_tunables_counterexample :
    (TransitionEvaluator.mkResolvedOptions
      { minTrackPlayTime := some (-5) }).minTrackPlayTime = -5 ∧
    ((-5:ℚ) < 0) ∧
    (TransitionEvaluator.mkResolvedOptions
      { cooldownPeriod := some (-1) }).cooldownPeriod = -1 ∧
    (TransitionEvaluator.mkResolvedOptions
      { crossfadeDuration := some (-2) }).crossfadeDuration = -2 ∧
    (SongSelector.mkResolvedOptions
      { historySize := some (-3) }).historySize = -3 ∧
    ((-3:ℚ) < 0) :=
  ⟨rfl, by norm_num, rfl, rfl, rfl, by norm_num⟩

/-- C9 amended: the constructors of TransitionEvaluator and SongSelector
substitute a default for each absent tunable (minTrackPlayTime 30,
cooldownPeriod 45, evaluationInterval 3000, thresholds.letPlay 30,
thresholds.wait 60, crossfadeDuration 8; historySize 10,
bpmTolerance 0.15, energyTolerance 0.15, preferSimilarBpm true) and store
every supplied value verbatim — out-of-range values such as negative
durations are neither clamped nor rejected. -/
theorem constructors_default_or_store_verbatim
    (o1 : TransitionEvaluatorOptions) (o2 : SelectorOptions) :
    (∀ q, o1.minTrackPlayTime = some q →
      (TransitionEvaluator.mkResolvedOptions o1).minTrackPlayTime = q) ∧
    (o1.minTrackPlayTime = none →
      (TransitionEvaluator.mkResolvedOptions o1).minTrackPlayTime = 30) ∧
    (∀ q, o1.cooldownPeriod = some q →
      (TransitionEvaluator.mkResolvedOptions o1).cooldownPeriod = q) ∧
    (o1.cooldownPeriod = none →
      (TransitionEvaluator.mkResolvedOptions o1).cooldownPeriod = 45) ∧
    (∀ q, o1.evaluationInterval = some q →
      (TransitionEvaluator.mkResolvedOptions o1).evaluationInterval = q) ∧
    (o1.evaluationInterval = none →
      (TransitionEvaluator.mkResolvedOptions o1).evaluationInterval = 3000) ∧
    (∀ th q, o1.thresholds = some th → th.letPlay = some q →
      (TransitionEvaluator.mkResolvedOptions o1).thresholds.letPlay = q) ∧
    (o1.thresholds.bind (fun t => t.letPlay) = none →
      (TransitionEvaluator.mkResolvedOptions o1).thresholds.letPlay = 30) ∧
    (∀ th q, o1.thresholds = some th → th.wait = some q →
      (TransitionEvaluator.mkResolvedOptions o1).thresholds.wait = q) ∧
    (o1.thresholds.bind (fun t => t.wait) = none →
      (TransitionEvaluator.mkResolvedOptions o1).thresholds.wait = 60) ∧
    (∀ q, o1.crossfadeDuration = some q →
      (TransitionEvaluator.mkResolvedOptions o1).crossfadeDuration = q) ∧
    (o1.crossfadeDuration = none →
      (TransitionEvaluator.mkResolvedOptions o1).crossfadeDuration = 8) ∧
    (∀ q, o2.historySize = some q →
      (SongSelector.mkResolvedOptions o2).historySize = q) ∧
    (o2.historySize = none →
      (SongSelector.mkResolvedOptions o2).historySize = 10) ∧
    (∀ q, o2.bpmTolerance = some q →
      (SongSelector.mkResolvedOptions o2).bpmTolerance = q) ∧
    (o2.bpmTolerance = none →
      (SongSelector.mkResolvedOptions o2).bpmTolerance = 0.15) ∧
    (∀ q, o2.energyTolerance = some q →
      (SongSelector.mkResolvedOptions o2).energyTolerance = q) ∧
    (o2.energyTolerance = none →
      (SongSelector.mkResolvedOptions o2).energyTolerance = 0.15) ∧
    (∀ b, o2.preferSimilarBpm = some b →
      (SongSelector.mkResolvedOptions o2).preferSimilarBpm = b) ∧
    (o2.preferSimilarBpm = none →
      (SongSelector.mkResolvedOptions o2).preferSimilarBpm = true) := by
  refine ⟨fun q h => ?_, fun h => ?_, fun q h => ?_, fun h => ?_,
    fun q h => ?_, fun h => ?_, fun th q h h' => ?_, fun h => ?_,
    fun th q h h' => ?_, fun h => ?_, fun q h => ?_, fun h => ?_,
    fun q h => ?_, fun h => ?_, fun q h => ?_, fun h => ?_,
    fun q h => ?_, fun h => ?_, fun b h => ?_, fun h => ?_⟩ <;>
    simp [TransitionEvaluator.mkResolvedOptions,
      SongSelector.mkResolvedOptions, *]

/-- Witness for the amended C9: all-absent options resolve to the
defaults (including the nested thresholds), and supplied values — a
nested letPlay threshold and a preferSimilarBpm flag — are stored
verbatim. -/
theorem constructors_default_or_store_verbatim_witness :
    (TransitionEvaluator.mkResolvedOptions {}).minTrackPlayTime = 30 ∧
    (TransitionEvaluator.mkResolvedOptions {}).thresholds.wait = 60 ∧
    (TransitionEvaluator.mkResolvedOptions
      { thresholds := some { letPlay := some 25 } }).thresholds.letPlay =
      25 ∧
    (SongSelector.mkResolvedOptions {}).historySize = 10 ∧
    (SongSelector.mkResolvedOptions
      { preferSimilarBpm := some false }).preferSimilarBpm = false := by
  obtain ⟨-, d2, -, -, -, -, -, -, -, d10, -, -, -, d14, -, -, -, -, -, -⟩ :=
    constructors_default_or_store_verbatim {} {}
  obtain ⟨-, -, -, -, -, -, d7, -, -, -, -, -, -, -, -, -, -, -, d19, -⟩ :=
    constructors_default_or_store_verbatim
      { thresholds := some { letPlay := some 25 } }
      { preferSimilarBpm := some false }
  exact ⟨d2 rfl, d10 rfl, d7 { letPlay := some 25 } 25 rfl rfl, d14 rfl,
    d19 false rfl⟩

/-- C10: BaseMoodDetector.updateMood recomputes the stored trend solely
from the difference between the new and previous energy — stable below an
absolute difference of 0.02, rising for a positive difference, falling
otherwise — so a caller-supplied trend (such as the browser trend
forwarded by CameraMoodDetector.processBrowserUpdate) never appears in the
stored state, which is also the state broadcast to listeners. -/
theorem updateMood_recomputes_trend (prev : MoodState) (patch : MoodPatch)
    (now : ℚ) :
    (BaseMoodDetector.updateMood prev patch now).trend =
      (if |patch.energy.getD prev.energy - prev.energy| < 0.02 then
        Trend.stable
       else if 0 < patch.energy.getD prev.energy - prev.energy then
        Trend.rising
       else Trend.falling) ∧
    (∀ t : Option Trend,
      BaseMoodDetector.updateMood prev { patch with trend := t } now =
        BaseMoodDetector.updateMood prev patch now) := by
  constructor
  · simp only [BaseMoodDetector.updateMood]
    split_ifs <;> rfl
  · intro t
    simp only [BaseMoodDetector.updateMood]

/-- C7: with the detector running at level energetic and a browser update
whose smoothed energy lands just below the warming_up boundary (in
(0.15, 0.35], the warming_up zone of the server mapping) and passes the
minimum-change gate, the level stays energetic if the update arrives
within hysteresisTime of the last accepted level change, and the same
nudge is accepted — the level becomes warming_up and the change time is
stamped — once hysteresisTime has elapsed. -/
theorem camera_level_hysteresis (o : CameraOptions) (s : CameraState)
    (b : BrowserMood) (now : ℚ)
    (hrun : s.running = true)
    (hlev : s.currentMood.level = MoodLevel.energetic)
    (hzone1 : 0.15 < o.smoothingFactor * b.energy +
      (1 - o.smoothingFactor) * s.smoothedEnergy)
    (hzone2 : o.smoothingFactor * b.energy +
      (1 - o.smoothingFactor) * s.smoothedEnergy ≤ 0.35)
    (hdelta : o.minEnergyChange ≤ |o.smoothingFactor * b.energy +
      (1 - o.smoothingFactor) * s.smoothedEnergy - s.currentMood.energy|) :
    (now - s.lastLevelChangeTime < o.hysteresisTime →
      (CameraMoodDetector.processBrowserUpdate o s b now).currentMood.level =
        MoodLevel.energetic ∧
      (CameraMoodDetector.processBrowserUpdate o s b now).lastLevelChangeTime =
        s.lastLevelChangeTime) ∧
    (o.hysteresisTime ≤ now - s.lastLevelChangeTime →
      (CameraMoodDetector.processBrowserUpdate o s b now).currentMood.level =
        MoodLevel.warming_up ∧
      (CameraMoodDetector.processBrowserUpdate o s b now).lastLevelChangeTime =
        now) := by
  have k1 : ¬ (o.smoothingFactor * b.energy +
      (1 - o.smoothingFactor) * s.smoothedEnergy ≤ (0.2:ℚ) - 0.05) :=
    not_le.mpr (by linarith)
  have k2 : o.smoothingFactor * b.energy +
      (1 - o.smoothingFactor) * s.smoothedEnergy ≤ (0.4:ℚ) - 0.05 := by
    linarith
  have hnl : energyToMoodLevel
      (o.smoothingFactor * b.energy +
        (1 - o.smoothingFactor) * s.smoothedEnergy)
      (some MoodLevel.energetic) = MoodLevel.warming_up := by
    simp only [energyToMoodLevel, Option.isSome_some, if_true, if_neg k1,
      if_pos k2]
  have hne : MoodLevel.warming_up ≠ MoodLevel.energetic := by simp
  have hgate : ¬ (|o.smoothingFactor * b.energy +
      (1 - o.smoothingFactor) * s.smoothedEnergy - s.currentMood.energy| <
      o.minEnergyChange) := not_lt.mpr hdelta
  constructor
  · intro ht
    have hnot : ¬ (MoodLevel.warming_up ≠ MoodLevel.energetic ∧
        o.hysteresisTime ≤ now - s.lastLevelChangeTime) :=
      fun hc => absurd hc.2 (not_le.mpr ht)
    simp only [CameraMoodDetector.processBrowserUpdate, hrun,
      Bool.not_true, Bool.false_eq_true, if_false, if_neg hgate, hlev, hnl]
    rw [if_pos hne, if_pos ht, if_neg hnot]
    refine ⟨?_, rfl⟩
    simp only [BaseMoodDetector.updateMood]
    split_ifs <;> rfl
  · intro ht
    have hyes : MoodLevel.warming_up ≠ MoodLevel.energetic ∧
        o.hysteresisTime ≤ now - s.lastLevelChangeTime := ⟨hne, ht⟩
    have hnlt : ¬ (now - s.lastLevelChangeTime < o.hysteresisTime) :=
      not_lt.mpr ht
    simp only [CameraMoodDetector.processBrowserUpdate, hrun,
      Bool.not_true, Bool.false_eq_true, if_false, if_neg hgate, hlev, hnl]
    rw [if_pos hne, if_neg hnlt, if_pos hyes]
    refine ⟨?_, rfl⟩
    simp only [BaseMoodDetector.updateMood]
    split_ifs <;> rfl

/-- Witness for C7: with default camera options, smoothed energy 0.3 from
current energy 0.6, a nudge 1000 ms after the last change keeps energetic,
and the same nudge 5000 ms after the last change flips to warming_up. -/
theorem camera_level_hysteresis_witness :
    (CameraMoodDetector.processBrowserUpdate {}
      { running := true
        currentMood := ⟨.energetic, 0.6, .stable, 0, 1⟩
        smoothedEnergy := 0.3
        lastLevelChangeTime := 0
        lastUpdateTime := 0 }
      ⟨.warming_up, 0.3, .falling, 0.9⟩ 1000).currentMood.level =
      MoodLevel.energetic ∧
    (CameraMoodDetector.processBrowserUpdate {}
      { running := true
        currentMood := ⟨.energetic, 0.6, .stable, 0, 1⟩
        smoothedEnergy := 0.3
        lastLevelChangeTime := 0
        lastUpdateTime := 0 }
      ⟨.warming_up, 0.3, .falling, 0.9⟩ 5000).currentMood.level =
      MoodLevel.warming_up := by
  have habs : |(0.3:ℚ) * 0.3 + (1 - 0.3) * 0.3 - 0.6| = 0.3 := by
    rw [show (0.3:ℚ) * 0.3 + (1 - 0.3) * 0.3 - 0.6 = -0.3 by norm_num,
      abs_of_nonpos (by norm_num)]
    norm_num
  constructor
  · exact ((camera_level_hysteresis {} _ _ 1000 rfl rfl (by norm_num)
      (by norm_num) (by rw [habs]; norm_num)).1 (by norm_num)).1
  · exact ((camera_level_hysteresis {} _ _ 5000 rfl rfl (by norm_num)
      (by norm_num) (by rw [habs]; norm_num)).2 (by norm_num)).1

/-- Witness for C5: at a concrete context whose urgency score lies above
the wait threshold, the theorem yields transition_now with the
transition-band confidence formula. -/
theorem evaluate_score_bands_witness :
    (TransitionEvaluator.evaluate (TransitionEvaluator.mkResolvedOptions {})
      { currentTrack := ⟨"a", 120, "Am", 0.2, 300⟩
        currentMood := ⟨.peak, 0.8, .rising, 0, 1⟩
        moodAtTrackStart := ⟨.warming_up, 0.35, .stable, 0, 1⟩
        trackPlayedSeconds := 200
        trackDuration := 300
        timeSinceLastTransition := 100
        moodStabilitySeconds := 12 }).action =
      TransitionAction.transition_now ∧
    (TransitionEvaluator.evaluate (TransitionEvaluator.mkResolvedOptions {})
      { currentTrack := ⟨"a", 120, "Am", 0.2, 300⟩
        currentMood := ⟨.peak, 0.8, .rising, 0, 1⟩
        moodAtTrackStart := ⟨.warming_up, 0.35, .stable, 0, 1⟩
        trackPlayedSeconds := 200
        trackDuration := 300
        timeSinceLastTransition := 100
        moodStabilitySeconds := 12 }).confidence =
      min 1 (0.7 + (TransitionEvaluator.calculateUrgencyScore
        { currentTrack := ⟨"a", 120, "Am", 0.2, 300⟩
          currentMood := ⟨.peak, 0.8, .rising, 0, 1⟩
          moodAtTrackStart := ⟨.warming_up, 0.35, .stable, 0, 1⟩
          trackPlayedSeconds := 200
          trackDuration := 300
          timeSinceLastTransition := 100
          moodStabilitySeconds := 12 } - 60) / 100) :=
  (evaluate_score_bands (TransitionEvaluator.mkResolvedOptions {}) _
    rfl rfl (by norm_num [TransitionEvaluator.mkResolvedOptions])
    (by norm_num [TransitionEvaluator.mkResolvedOptions])
    (by norm_num [TransitionEvaluator.mkResolvedOptions])
    (by norm_num [TransitionEvaluator.mkResolvedOptions])).2.2
    (by simp only [TransitionEvaluator.calculateUrgencyScore]
        norm_num [abs_of_nonneg])


